import Mathlib

/-!
# Verification of the kakao-rag-bot handlers

Shallow embedding of the core pipeline of the `kakao-rag-bot` repository
(serverless Korean HR/labor-law RAG chatbot) and proofs about it.

The repository consists of near-duplicate handler variants:
* `api/router.js` — a plain diagnostic handler, then two Express variants
  (`chunkText`, `pickAgent`, `agentCompany`, `agentLaw`, `answerWithLLM`,
  `POST /kakao`, `POST /upload`);
* `src/unnamed/part_000` — a pure serverless handler with the
  `AbortController`-based 4.5s LLM guard;
* `src/unnamed/part_001` — another Express variant plus an echo handler.

External services (embedding API, vector RPC, chat completion, persistence)
are modelled as oracles: total functions returning `Except Err` values, an
`error` result standing for a rejected promise.  JS strings are modelled by
Lean `String`/`List Char`; `undefined` by `Option.none`; machine numbers by
`Nat` (all quantities involved are small non-negative integers).
-/

/-- Error values carried by rejected promises of the external services. -/
abbrev Err := String

/-! ## The chunker (`chunkText`)

All three variants implement the same loop (`api/router.js` lines 73-83 and
338-348, `part_000` lines 28-38, `part_001` lines 65-74), differing only in
the default `(chunkSize, overlap)`:

```js
function chunkText(text, chunkSize = 1200, overlap = 200) {
  const chunks = [];
  let i = 0;
  while (i < text.length) {
    const end = Math.min(i + chunkSize, text.length);
    chunks.push(text.slice(i, end));
    i = end - overlap;
    if (i < 0) i = 0;
  }
  return chunks;
}
```

The loop is embedded fuel-indexed: `none` means the fuel was exhausted, so
termination of the JS loop is `∃ fuel, … = some chunks`.  Windows are the
`(i, end)` index pairs pushed by the loop; `Nat` subtraction `end - overlap`
is exactly the clamped `Math.max(0, end - overlap)` / `if (i < 0) i = 0`
of the source. -/
def chunkTextAux (chunkSize overlap len : Nat) : Nat → Nat → Option (List (Nat × Nat))
  | 0, _ => none
  | Nat.succ fuel, i =>
    if i < len then
      match chunkTextAux chunkSize overlap len fuel (min (i + chunkSize) len - overlap) with
      | some rest => some ((i, min (i + chunkSize) len) :: rest)
      | none => none
    else
      some []

/-- `chunkText text chunkSize overlap fuel`: the list of chunks (as character
lists, `text.slice(i, end)` being `(text.drop i).take (end - i)`) produced by
the JS loop within `fuel` iterations, `none` if the loop runs longer. -/
def chunkText (text : List Char) (chunkSize overlap : Nat) (fuel : Nat) :
    Option (List (List Char)) :=
  (chunkTextAux chunkSize overlap text.length fuel 0).map
    (List.map (fun w => (text.drop w.1).take (w.2 - w.1)))

/-- The coverage property of the spec: every character index below `len` lies
in one of the windows. -/
def coversRange (ws : List (Nat × Nat)) (len : Nat) : Prop :=
  ∀ j, j < len → ∃ w, w ∈ ws ∧ w.1 ≤ j ∧ j < w.2

/-- Key fact about the loop: as soon as `0 < overlap` and the text is
nonempty, every iteration starting below `len` stays below `len`
(the next index is `min (i + chunkSize) len - overlap ≤ len - overlap < len`),
so the loop never exits and every amount of fuel is exhausted. -/
theorem chunkTextAux_stuck (chunkSize overlap len : Nat)
    (ho : 0 < overlap) (hl : 0 < len) :
    ∀ fuel i, i < len → chunkTextAux chunkSize overlap len fuel i = none := by
  intro fuel
  induction fuel with
  | zero => intro i _; rfl
  | succ n ih =>
    intro i h
    have hnext : min (i + chunkSize) len - overlap < len := by
      have h1 : min (i + chunkSize) len - overlap ≤ len - overlap :=
        Nat.sub_le_sub_right (Nat.min_le_right _ _) _
      exact Nat.lt_of_le_of_lt h1 (Nat.sub_lt hl ho)
    simp only [chunkTextAux, if_pos h, ih _ hnext]

/-- C1: the claim "for every text and all `size > 0`, `0 ≤ overlap < size`,
`chunkText` terminates after finitely many loop iterations" is FALSE of the
code: whenever `0 < overlap` and the text is nonempty the loop sticks at
`i = len - overlap` (clamped) and never terminates — no amount of fuel
completes it.  (`overlap < size` is not even needed.)  This is the
overlap-causes-infinite-loop defect the spec's regression property is about;
it fires for every valid parameter choice with positive overlap, including
the defaults `(1200, 200)`. -/
theorem chunkText_diverges (text : List Char) (chunkSize overlap fuel : Nat)
    (ho : 0 < overlap) (ht : text ≠ []) :
    chunkText text chunkSize overlap fuel = none := by
  have hl : 0 < text.length := List.length_pos.mpr ht
  unfold chunkText
  rw [chunkTextAux_stuck chunkSize overlap text.length ho hl fuel 0 hl]
  rfl

/-- Witness for `chunkText_diverges`: the concrete failing input
`text = "a"`, `size = 2`, `overlap = 1` (valid per the claim: `2 > 0`,
`0 ≤ 1 < 2`) exhausts even 1000 iterations of fuel. -/
theorem chunkText_diverges_witness : chunkText ['a'] 2 1 1000 = none :=
  chunkText_diverges ['a'] 2 1 1000 (by decide) (by decide)

/-- C2: the claim "the windows returned by `chunkText` jointly cover
`[0, len text)` with no gaps, with about `⌈len / (size - overlap)⌉` windows"
is FALSE of the code at the valid input `text = "a"`, `size = 2`,
`overlap = 1`: the loop never returns at all (no fuel suffices), so there is
no returned window list — in particular none covering `[0, 1)`. -/
theorem chunkText_no_covering_windows :
    ¬ ∃ fuel ws, chunkTextAux 2 1 1 fuel 0 = some ws ∧ coversRange ws 1 := by
  rintro ⟨fuel, ws, h, -⟩
  rw [chunkTextAux_stuck 2 1 1 (by decide) (by decide) fuel 0 (by decide)] at h
  exact Option.noConfusion h

/-! ## The agent router (`pickAgent`)

From `api/router.js` lines 153-160 (the same keyword lists appear at lines
395-402 and in `part_001` lines 121-128; `part_000` lines 71-78 extends both
lists but agrees on all inputs used below):

```js
function pickAgent(userText) {
  const t = userText.toLowerCase();
  const companyKeywords = ["취업규칙","단체협약","임금협약","연차","휴가","특별휴가","수당","교대","승진","밴드"];
  const lawKeywords = ["근로기준법","연차유급휴가","해고","서면통지","고용보험","산재","유연근무","출산휴가","육아휴직"];
  if (companyKeywords.some(k => t.includes(k))) return "company";
  if (lawKeywords.some(k => t.includes(k))) return "law";
  return "mix";
}
```
-/

/-- Character-level model of JS `String.prototype.toLowerCase`: ASCII
uppercase maps down by 32, every other character (all the Hangul used by the
keyword lists included) is a fixpoint. -/
def jsToLower (c : Char) : Char :=
  if 65 ≤ c.toNat ∧ c.toNat ≤ 90 then Char.ofNat (c.toNat + 32) else c

/-- `s.toLowerCase()`. -/
def lowerStr (s : String) : String :=
  String.mk (s.data.map jsToLower)

/-- `key` matches at the head of `t` (helper for `includes`). -/
def matchesAt : List Char → List Char → Bool
  | [], _ => true
  | _ :: _, [] => false
  | k :: ks, c :: cs => k == c && matchesAt ks cs

/-- JS `t.includes(key)`: `key` occurs contiguously somewhere in `t`. -/
def containsSub (key : List Char) : List Char → Bool
  | [] => matchesAt key []
  | c :: cs => matchesAt key (c :: cs) || containsSub key cs

/-- `t.includes(k)` on strings. -/
def includesStr (t k : String) : Bool :=
  containsSub k.data t.data

/-- The routing decision. -/
inductive Agent where
  | company
  | law
  | mix
  deriving DecidableEq

/-- The company-policy keyword list of `pickAgent`. -/
def companyKeywords : List String :=
  ["취업규칙", "단체협약", "임금협약", "연차", "휴가", "특별휴가", "수당", "교대", "승진", "밴드"]

/-- The labor-law keyword list of `pickAgent`. -/
def lawKeywords : List String :=
  ["근로기준법", "연차유급휴가", "해고", "서면통지", "고용보험", "산재", "유연근무", "출산휴가", "육아휴직"]

/-- `pickAgent` (`api/router.js` lines 153-160). -/
def pickAgent (userText : String) : Agent :=
  let t := lowerStr userText
  if companyKeywords.any (fun k => includesStr t k) then Agent.company
  else if lawKeywords.any (fun k => includesStr t k) then Agent.law
  else Agent.mix

/-- Lowercased ASCII letters are fixpoints of `jsToLower`. -/
theorem jsToLower_fix (m : Nat) (h1 : 97 ≤ m) (h2 : m ≤ 122) :
    jsToLower (Char.ofNat m) = Char.ofNat m := by
  interval_cases m <;> decide

/-- `jsToLower` is idempotent. -/
theorem jsToLower_idem (c : Char) : jsToLower (jsToLower c) = jsToLower c := by
  by_cases h : 65 ≤ c.toNat ∧ c.toNat ≤ 90
  · simp only [jsToLower, if_pos h]
    exact jsToLower_fix (c.toNat + 32) (by omega) (by omega)
  · simp only [jsToLower, if_neg h]

/-- Mapping `jsToLower` is idempotent on character lists. -/
theorem mapJsToLower_idem (l : List Char) :
    (l.map jsToLower).map jsToLower = l.map jsToLower := by
  induction l with
  | nil => rfl
  | cons c cs ih => simp [ih, jsToLower_idem]

/-- `toLowerCase` is idempotent. -/
theorem lowerStr_idem (s : String) : lowerStr (lowerStr s) = lowerStr s :=
  congrArg String.mk (mapJsToLower_idem s.data)

/-- `pickAgent` only sees its input through `toLowerCase`. -/
theorem pickAgent_lower (s : String) : pickAgent (lowerStr s) = pickAgent s := by
  simp only [pickAgent, lowerStr_idem]

/-- C3: `pickAgent` is a pure deterministic classifier: lowercasing first,
company keywords take priority over law keywords (e.g. on "연차유급휴가",
which contains the company keyword "연차" and the law keyword
"연차유급휴가"), no match gives `mix`, the empty string gives `mix`, the
three sample utterances classify as the spec says, and classification is
invariant under lowercasing. -/
theorem pickAgent_correct :
    pickAgent "연차 휴가 관련 문의" = Agent.company ∧
    pickAgent "근로기준법상 해고 절차" = Agent.law ∧
    pickAgent "오늘 날씨 어때" = Agent.mix ∧
    pickAgent "" = Agent.mix ∧
    pickAgent "연차유급휴가" = Agent.company ∧
    (∀ s : String, pickAgent (lowerStr s) = pickAgent s) :=
  ⟨by decide, by decide, by decide, by decide, by decide, pickAgent_lower⟩

/-- Witness for `pickAgent_correct`: the lowercase-invariance component at a
concrete mixed-case input. -/
theorem pickAgent_correct_witness :
    pickAgent (lowerStr "연차 HOLIDAY") = pickAgent "연차 HOLIDAY" :=
  pickAgent_correct.2.2.2.2.2 "연차 HOLIDAY"

/-! ## Search results, bundles, and the retrieval agents

`searchDocs` (an embedding call plus the `match_documents` RPC) is an
external service; it is modelled as an oracle
`search : String → Except Err (List Ctx)` from a `filterSource` name to
either a result list or a rejection.  `searchDocs(q, src).catch(() => [])`
is `catchEmpty (search src)`. -/

/-- A similarity-search result row (the fields the pipeline reads). -/
structure Ctx where
  source : String
  title : String
  content : String
  deriving DecidableEq

/-- A labeled group of results, as assembled by the agents. -/
structure Bundle where
  name : String
  contexts : List Ctx
  deriving DecidableEq

/-- `promise.catch(() => [])`: a rejected search degrades to no results. -/
def catchEmpty (r : Except Err (List Ctx)) : List Ctx :=
  match r with
  | Except.ok l => l
  | Except.error _ => []

/-- `agentCompany` (`api/router.js` lines 163-169):

```js
async function agentCompany(query) {
  const hits = await searchDocs(query, "회사취업규칙").catch(()=>[]);
  const more1 = hits.length<3 ? await searchDocs(query, "단체협약").catch(()=>[]) : [];
  const more2 = hits.length+more1.length<3 ? await searchDocs(query, "임금협약서").catch(()=>[]) : [];
  const contexts = [...hits, ...more1, ...more2];
  return { name: "회사 내규", contexts };
}
```

The `query` argument is pre-applied in the oracle. -/
def agentCompany (search : String → Except Err (List Ctx)) : Bundle :=
  let hits := catchEmpty (search "회사취업규칙")
  let more1 := if hits.length < 3 then catchEmpty (search "단체협약") else []
  let more2 := if hits.length + more1.length < 3 then catchEmpty (search "임금협약서") else []
  { name := "회사 내규", contexts := hits ++ more1 ++ more2 }

/-- C4: if the primary company-source search (회사취업규칙) rejects, the
bundle still comes back (the embedding is a total function: the rejection is
consumed by `.catch`) and its contexts are exactly the fallback sources'
results in order — 단체협약 first, then 임금협약서 (the latter only queried
while fewer than 3 results have accumulated, per the source).  Moreover each
per-source failure is independently swallowed: the bundler behaves exactly
as if every rejected source had returned the empty list. -/
theorem agentCompany_primary_fallback (search : String → Except Err (List Ctx))
    (e : Err) (h : search "회사취업규칙" = Except.error e) :
    (agentCompany search).contexts =
      catchEmpty (search "단체협약") ++
        (if (catchEmpty (search "단체협약")).length < 3
          then catchEmpty (search "임금협약서") else []) ∧
    agentCompany search = agentCompany (fun src => Except.ok (catchEmpty (search src))) := by
  constructor
  · simp [agentCompany, h, catchEmpty]
  · rfl

/-- A concrete search oracle whose primary company source is down and whose
fallback sources return fixed rows. -/
def searchPrimaryDown : String → Except Err (List Ctx) :=
  fun src =>
    if src = "회사취업규칙" then Except.error "down"
    else if src = "단체협약" then Except.ok [{ source := "단체협약", title := "t", content := "c" }]
    else Except.ok []

/-- Witness for `agentCompany_primary_fallback` at `searchPrimaryDown`. -/
theorem agentCompany_primary_fallback_witness :
    (agentCompany searchPrimaryDown).contexts =
      catchEmpty (searchPrimaryDown "단체협약") ++
        (if (catchEmpty (searchPrimaryDown "단체협약")).length < 3
          then catchEmpty (searchPrimaryDown "임금협약서") else []) ∧
    agentCompany searchPrimaryDown =
      agentCompany (fun src => Except.ok (catchEmpty (searchPrimaryDown src))) :=
  agentCompany_primary_fallback searchPrimaryDown "down" rfl

/-- The fixed ordered pool of legal sources of `agentLaw`
(`api/router.js` line 172). -/
def lawPool : List String :=
  ["근로기준법", "고용보험법", "산재보험법", "유연근무매뉴얼", "노무관리가이드북", "질의회시집", "양성평등기본법"]

/-- The `for (const src of pool) { … if (contexts.length>6) break; }` loop of
`agentLaw`, carrying the accumulated `contexts`. -/
def agentLawLoop (search : String → Except Err (List Ctx)) :
    List String → List Ctx → List Ctx
  | [], ctx => ctx
  | src :: rest, ctx =>
    let got := catchEmpty (search src)
    let ctx2 := ctx ++ got
    if 6 < ctx2.length then ctx2 else agentLawLoop search rest ctx2

/-- `agentLaw` (`api/router.js` lines 171-180):

```js
async function agentLaw(query) {
  const pool = ["근로기준법","고용보험법","산재보험법","유연근무매뉴얼","노무관리가이드북","질의회시집","양성평등기본법"];
  let contexts = [];
  for (const src of pool) {
    const got = await searchDocs(query, src).catch(()=>[]);
    contexts = contexts.concat(got);
    if (contexts.length>6) break;
  }
  return { name: "법령 기준", contexts: contexts.slice(0,6) };
}
```
-/
def agentLaw (search : String → Except Err (List Ctx)) : Bundle :=
  { name := "법령 기준", contexts := (agentLawLoop search lawPool []).take 6 }

/-- The concatenation of the (fault-tolerant) per-source results over a
source list, in order. -/
def flatSearch (search : String → Except Err (List Ctx)) : List String → List Ctx
  | [] => []
  | src :: rest => catchEmpty (search src) ++ flatSearch search rest

/-- Unfolding equation for one iteration of the loop. -/
theorem agentLawLoop_cons (search : String → Except Err (List Ctx))
    (src : String) (rest : List String) (ctx : List Ctx) :
    agentLawLoop search (src :: rest) ctx =
      if 6 < (ctx ++ catchEmpty (search src)).length then ctx ++ catchEmpty (search src)
      else agentLawLoop search rest (ctx ++ catchEmpty (search src)) := rfl

/-- Loop characterization: starting from an accumulator of at most 6
results, the loop visits some prefix of the remaining sources — every proper
sub-prefix of which had accumulated at most 6 results — and returns the
accumulator extended with that prefix's concatenated results; it stops early
exactly when the accumulated count first exceeds 6. -/
theorem agentLawLoop_charac (search : String → Except Err (List Ctx)) :
    ∀ (srcs : List String) (ctx : List Ctx), ctx.length ≤ 6 →
    ∃ n, n ≤ srcs.length ∧
      agentLawLoop search srcs ctx = ctx ++ flatSearch search (srcs.take n) ∧
      (∀ m, m < n → (ctx ++ flatSearch search (srcs.take m)).length ≤ 6) ∧
      (n = srcs.length ∨ 6 < (ctx ++ flatSearch search (srcs.take n)).length) := by
  intro srcs
  induction srcs with
  | nil =>
    intro ctx _
    refine ⟨0, Nat.le_refl 0, by simp [agentLawLoop, flatSearch], ?_, Or.inl rfl⟩
    intro m hm
    exact absurd hm (Nat.not_lt_zero m)
  | cons src rest ih =>
    intro ctx h
    by_cases h6 : 6 < (ctx ++ catchEmpty (search src)).length
    · refine ⟨1, by simp, ?_, ?_, Or.inr ?_⟩
      · rw [agentLawLoop_cons, if_pos h6]
        simp [flatSearch]
      · intro m hm
        have hm0 : m = 0 := by omega
        subst hm0
        simpa [flatSearch] using h
      · simpa [flatSearch] using h6
    · have h6' : (ctx ++ catchEmpty (search src)).length ≤ 6 := Nat.le_of_not_lt h6
      obtain ⟨n, hn, heq, hmin, hlast⟩ := ih (ctx ++ catchEmpty (search src)) h6'
      refine ⟨n + 1, Nat.succ_le_succ hn, ?_, ?_, ?_⟩
      · rw [agentLawLoop_cons, if_neg h6, heq]
        simp [flatSearch, List.append_assoc]
      · intro m hm
        match m with
        | 0 => simpa [flatSearch] using h
        | Nat.succ m' =>
          have hm' : m' < n := by omega
          simpa [flatSearch, List.append_assoc] using hmin m' hm'
      · cases hlast with
        | inl hl => exact Or.inl (by simp [hl])
        | inr hr => exact Or.inr (by simpa [flatSearch, List.append_assoc] using hr)

/-- C5: `agentLaw` queries the fixed pool of 7 legal sources one at a time
in order: for some number `n` of visited sources, every proper prefix of the
visited sources had accumulated at most 6 results (so the loop kept going),
the loop stopped either because the pool was exhausted or because strictly
more than 6 results had accumulated, and the returned contexts are the first
6 of the visited sources' concatenated results (earlier sources first) —
hence at most 6 elements. -/
theorem agentLaw_pool_cap (search : String → Except Err (List Ctx)) :
    lawPool.length = 7 ∧
    (agentLaw search).contexts.length ≤ 6 ∧
    ∃ n, n ≤ lawPool.length ∧
      (agentLaw search).contexts = (flatSearch search (lawPool.take n)).take 6 ∧
      (∀ m, m < n → (flatSearch search (lawPool.take m)).length ≤ 6) ∧
      (n = lawPool.length ∨ 6 < (flatSearch search (lawPool.take n)).length) := by
  obtain ⟨n, hn, heq, hmin, hlast⟩ := agentLawLoop_charac search lawPool [] (by simp)
  have hctx : (agentLaw search).contexts = (flatSearch search (lawPool.take n)).take 6 := by
    simp only [agentLaw]
    rw [heq]
    simp
  refine ⟨rfl, ?_, n, hn, hctx, ?_, ?_⟩
  · rw [hctx]
    simp
  · intro m hm
    simpa using hmin m hm
  · simpa using hlast

/-- A search oracle returning 4 rows for every source (so the loop must stop
after the second source with 8 accumulated rows). -/
def searchFour : String → Except Err (List Ctx) :=
  fun src => Except.ok
    [{ source := src, title := "a", content := "1" },
     { source := src, title := "b", content := "2" },
     { source := src, title := "c", content := "3" },
     { source := src, title := "d", content := "4" }]

/-- Witness for `agentLaw_pool_cap`: the cap holds at `searchFour`. -/
theorem agentLaw_pool_cap_witness : (agentLaw searchFour).contexts.length ≤ 6 :=
  (agentLaw_pool_cap searchFour).2.1

/-! ## The answer generator (`answerWithLLM`)

Two distinct implementations ship in the repository:

* `api/router.js` lines 187-212 (and its twins at lines 419-429 /
  `part_001` lines 145-156): a plain `await openai.chat.completions.create`
  with **no** timeout — a rejected call propagates to the `/kakao` handler's
  `catch`;
* `part_000` lines 80-105: the same call raced against
  `setTimeout(() => controller.abort(), 4500)` and wrapped in
  `try { … } catch { return "요청이 많아 잠시 후 다시 시도해 주세요. (LLM 타임아웃)"; }`.

The chat completion service is an oracle
`chat : String → String → Except Err (Option String)` taking the system and
user messages; `Except.error` models a rejected promise — for the `part_000`
variant that includes the `AbortController` firing when the 4.5s timer
elapses before the call resolves — and the `Option` is the possibly-missing
`res.choices[0]?.message?.content`. -/

/-- JS `x || d` for a possibly-`undefined` string `x` (`undefined` and `""`
are falsy). -/
def jsOrStr (a : Option String) (d : String) : String :=
  match a with
  | some s => if s.isEmpty then d else s
  | none => d

/-- `s.slice(0, n)`. -/
def strTake (s : String) (n : Nat) : String :=
  String.mk (s.data.take n)

/-- `bundles.flatMap(b => b.contexts)`. -/
def ctxsOf : List Bundle → List Ctx
  | [] => []
  | b :: rest => b.contexts ++ ctxsOf rest

/-- The flattened context rendering shared by the variants:
`【source/title】 content.slice(0, limit)` joined with blank lines
(`limit` is 500 in the Express variants, 600 in `part_000`). -/
def renderCtx (limit : Nat) (bundles : List Bundle) : String :=
  String.intercalate "\n\n"
    ((ctxsOf bundles).map
      (fun c => "【" ++ c.source ++ "/" ++ c.title ++ "】 " ++ strTake c.content limit))

/-- System message of the Express variant (`api/router.js` lines 188-191). -/
def systemPromptIndex : String :=
  "\n당신은 HR/노무 챗봇입니다. 회사규정→법령 순으로 근거를 들어 간결히 답하세요.\n핵심 bullet로, 마지막에 \"주의/근거\"를 2~3줄로 요약하세요. 한국어.\n"

/-- User message of the Express variant (`api/router.js` lines 197-203). -/
def userPromptIndex (userText contextTxt : String) : String :=
  "\n[사용자 질문]\n" ++ userText ++ "\n\n[검색된 근거(잘 읽고 핵심만 답변에 반영)]\n" ++ contextTxt ++ "\n"

/-- `answerWithLLM` of the Express variant (`api/router.js` lines 187-212):
no timeout, no catch — a rejected completion call propagates to the caller
(`Except.error`). -/
def answerWithLLMIndex (chat : String → String → Except Err (Option String))
    (userText : String) (bundles : List Bundle) : Except Err String :=
  let contextTxt := renderCtx 500 bundles
  match chat systemPromptIndex (userPromptIndex userText contextTxt) with
  | Except.error e => Except.error e
  | Except.ok content => Except.ok (jsOrStr (content.map String.trim) "답변 생성 실패")

/-- The `setTimeout(() => controller.abort(), 4500)` budget of the
`part_000` variant, in milliseconds (`part_000` line 87). -/
def timeoutMs000 : Nat := 4500

/-- The canned "system busy" fallback of the `part_000` variant
(`part_000` line 103). -/
def llmTimeoutFallback : String := "요청이 많아 잠시 후 다시 시도해 주세요. (LLM 타임아웃)"

/-- System message of the `part_000` variant (`part_000` line 81). -/
def systemPrompt000 : String :=
  "당신은 한국 기업 HR/노무 챗봇입니다. 검색 근거(회사규정→법령 순)를 활용해 한국어로 간결+정확하게 답하세요. 핵심 bullet과 마지막에 '주의/근거' 2~3줄."

/-- User message of the `part_000` variant (`part_000` line 94). -/
def userPrompt000 (userText ctx : String) : String :=
  "[사용자 질문]\n" ++ userText ++ "\n\n[검색된 근거]\n" ++ ctx

/-- `answerWithLLM` of `part_000` (lines 80-105): the completion call runs
under the 4.5s abort guard, and `try/catch` turns any rejection — the abort
on budget expiry included — into the canned busy fallback; an empty or
missing completion becomes "답변 생성 실패".  Total: never propagates. -/
def answerWithLLM000 (chat : String → String → Except Err (Option String))
    (userText : String) (bundles : List Bundle) : String :=
  let ctx := renderCtx 600 bundles
  match chat systemPrompt000 (userPrompt000 userText ctx) with
  | Except.ok content => jsOrStr (content.map String.trim) "답변 생성 실패"
  | Except.error _ => llmTimeoutFallback

/-- C6 counterexample: the claim as stated — "`answerWithLLM` … returns a
canned busy fallback instead of blocking the caller or propagating an
error" — is FALSE of the `answerWithLLM` in `api/router.js` (and
`part_001`): it has no budget and no catch, so a rejected completion call
propagates to the caller unchanged. -/
theorem answerWithLLMIndex_propagates :
    answerWithLLMIndex (fun _ _ => Except.error "timeout") "q" [] =
      Except.error "timeout" := rfl

/-- C6 (amended): in the `part_000` variant, the generation call runs under
a hard 4500 ms abort budget, and whenever the call does not complete —
i.e. the oracle reports a rejection, the abort on budget expiry included —
`answerWithLLM` returns the canned busy fallback instead of propagating. -/
theorem answerWithLLM000_timeout (chat : String → String → Except Err (Option String))
    (userText : String) (bundles : List Bundle) (e : Err)
    (h : chat systemPrompt000 (userPrompt000 userText (renderCtx 600 bundles)) =
      Except.error e) :
    answerWithLLM000 chat userText bundles = llmTimeoutFallback ∧
    timeoutMs000 = 4500 := by
  constructor
  · simp only [answerWithLLM000, h]
  · rfl

/-- A completion oracle that always rejects (e.g. every call aborted at the
4.5s budget). -/
def chatDown : String → String → Except Err (Option String) :=
  fun _ _ => Except.error "aborted"

/-- Witness for `answerWithLLM000_timeout` at the always-aborting oracle. -/
theorem answerWithLLM000_timeout_witness :
    answerWithLLM000 chatDown "연차 문의" [] = llmTimeoutFallback ∧
    timeoutMs000 = 4500 :=
  answerWithLLM000_timeout chatDown "연차 문의" [] "aborted" rfl

/-! ## The `POST /kakao` webhook handler (Express variant)

From `api/router.js` lines 226-266: secret check, classification, both
retrieval agents, bundle selection, generation, fire-and-forget persistence,
and the chat-protocol response — the whole body wrapped in
`try { … } catch { return res.json({version:"2.0", …apology…}); }`.
`res.json` without an explicit status is HTTP 200. -/

/-- The fields of the webhook JSON body that the handler reads
(`req.body?.userRequest?.utterance`, `req.body?.userRequest?.user?.id`);
`none` models an absent field, the outer `Option` an absent/malformed body. -/
structure KakaoBody where
  utterance : Option String
  userId : Option String
  deriving DecidableEq

/-- Chat-protocol `template`: the `simpleText` texts of `outputs` and the
`(label, messageText)` pairs of `quickReplies` (absent `quickReplies` is
modelled as `[]`). -/
structure Template where
  outputs : List String
  quickReplies : List (String × String)
  deriving DecidableEq

/-- Chat-protocol response payload `{version, template}`. -/
structure KakaoPayload where
  version : String
  template : Template
  deriving DecidableEq

/-- An HTTP response as produced by the handlers: a JSON chat payload, a
JSON error object `{error: …}`, or a plain-text body. -/
inductive Resp where
  | json (status : Nat) (payload : KakaoPayload)
  | errJson (status : Nat) (err : String)
  | text (status : Nat) (body : String)
  deriving DecidableEq

/-- JS truthiness of a possibly-`undefined` string (the `if (KAKAO_SKILL_SECRET)`
and `if (ADMIN_PASSWORD)` guards): `undefined` and `""` are falsy. -/
def truthy (o : Option String) : Bool :=
  match o with
  | some s => !s.isEmpty
  | none => false

/-- `agentFactCheck` (`api/router.js` lines 182-184) — computed and
discarded by the handler ("현재는 규칙만 반영"). -/
def agentFactCheck (_companyAns _lawAns : Bundle) : String × String :=
  ("팩트체크", "회사 규정과 법령을 함께 제시. 충돌 시 법 우선.")

/-- The quick replies attached to a successful answer
(`api/router.js` lines 253-256). -/
def quickRepliesIndex : List (String × String) :=
  [("회사규정으로 다시", "회사 규정 기준으로 다시 알려줘"),
   ("법 기준으로 다시", "법 기준으로 다시 알려줘")]

/-- The successful response payload: `finalText.slice(0, 2500)` plus the
quick replies (`api/router.js` lines 249-258). -/
def okPayload (finalText : String) : KakaoPayload :=
  { version := "2.0",
    template := { outputs := [strTake finalText 2500], quickReplies := quickRepliesIndex } }

/-- The apologetic fallback text of the `catch` branch
(`api/router.js` line 263). -/
def apologyText : String := "잠시 오류가 발생했어요. 조금 뒤 다시 시도해 주세요."

/-- The `catch` branch's payload (`api/router.js` lines 261-264). -/
def apologyPayload : KakaoPayload :=
  { version := "2.0", template := { outputs := [apologyText], quickReplies := [] } }

/-- The `try` body of `POST /kakao` after the secret check
(`api/router.js` lines 233-258), with the external calls as oracles:
`search` for `searchDocs`, `chat` for the completion call, `save` for
`saveQAMemory` (whose promise is not awaited and whose rejection is consumed
by `.catch(console.warn)` — hence `save`'s value is discarded).  The one
`await` whose rejection escapes to the `catch` is `answerWithLLM`, so the
result is `Except`. -/
def kakaoCore (search : String → Except Err (List Ctx))
    (chat : String → String → Except Err (Option String))
    (save : String → String → String → Except Err Unit)
    (body : Option KakaoBody) : Except Err KakaoPayload :=
  let userText := jsOrStr (body.bind KakaoBody.utterance) ""
  let userId := jsOrStr (body.bind KakaoBody.userId) "anon"
  let mode := pickAgent userText
  let company := agentCompany search
  let law := agentLaw search
  let bundles :=
    if mode = Agent.company then [company]
    else if mode = Agent.law then [law]
    else [company, law]
  let _factCheck := agentFactCheck company law
  match answerWithLLMIndex chat userText bundles with
  | Except.error e => Except.error e
  | Except.ok finalText =>
    let _saved := save userId userText finalText
    Except.ok (okPayload finalText)

/-- `POST /kakao` (`api/router.js` lines 226-266): the secret check (403 on
mismatch when `KAKAO_SKILL_SECRET` is truthy), then the `try` body, with the
`catch` branch returning the 200 apology payload. -/
def kakaoPostHandler (secret headerToken : Option String)
    (search : String → Except Err (List Ctx))
    (chat : String → String → Except Err (Option String))
    (save : String → String → String → Except Err Unit)
    (body : Option KakaoBody) : Resp :=
  if truthy secret = true ∧ headerToken ≠ secret then Resp.errJson 403 "forbidden"
  else
    match kakaoCore search chat save body with
    | Except.ok p => Resp.json 200 p
    | Except.error _ => Resp.json 200 apologyPayload

/-- Every value `kakaoCore` can return in the `ok` case is an `okPayload`. -/
theorem kakaoCore_ok_shape (search : String → Except Err (List Ctx))
    (chat : String → String → Except Err (Option String))
    (save : String → String → String → Except Err Unit)
    (body : Option KakaoBody) (p : KakaoPayload)
    (h : kakaoCore search chat save body = Except.ok p) :
    ∃ t, p = okPayload t := by
  simp only [kakaoCore] at h
  split at h
  · exact Except.noConfusion h
  · exact ⟨_, (Except.ok.inj h).symm⟩

/-- C7: for every `POST /kakao` request that passes the secret check, and
every behavior of the external services — retrieval, generation and
persistence all allowed to fail — the handler answers HTTP 200 with a
well-formed chat payload: `version = "2.0"` and exactly one `simpleText`
output (the generated answer or the apologetic fallback), never an HTTP
error status. -/
theorem kakaoPost_always_200 (secret headerToken : Option String)
    (search : String → Except Err (List Ctx))
    (chat : String → String → Except Err (Option String))
    (save : String → String → String → Except Err Unit)
    (body : Option KakaoBody)
    (hpass : ¬(truthy secret = true ∧ headerToken ≠ secret)) :
    ∃ p : KakaoPayload,
      kakaoPostHandler secret headerToken search chat save body = Resp.json 200 p ∧
      p.version = "2.0" ∧ p.template.outputs.length = 1 := by
  unfold kakaoPostHandler
  rw [if_neg hpass]
  cases hc : kakaoCore search chat save body with
  | error e => exact ⟨apologyPayload, rfl, rfl, rfl⟩
  | ok p =>
    obtain ⟨t, ht⟩ := kakaoCore_ok_shape search chat save body p hc
    exact ⟨p, rfl, by rw [ht]; rfl, by rw [ht]; rfl⟩

/-- A search oracle that always rejects. -/
def searchAllDown : String → Except Err (List Ctx) :=
  fun _ => Except.error "search down"

/-- A persistence oracle that always rejects. -/
def saveDown : String → String → String → Except Err Unit :=
  fun _ _ _ => Except.error "insert failed"

/-- Witness for `kakaoPost_always_200`: with a configured secret, a matching
token, and every external service failing, the handler still answers 200
with a single-output `"2.0"` payload. -/
theorem kakaoPost_always_200_witness :
    ∃ p : KakaoPayload,
      kakaoPostHandler (some "sec") (some "sec") searchAllDown chatDown saveDown none =
        Resp.json 200 p ∧
      p.version = "2.0" ∧ p.template.outputs.length = 1 :=
  kakaoPost_always_200 (some "sec") (some "sec") searchAllDown chatDown saveDown none
    (by simp)

/-- C8: the user-visible response of `POST /kakao` is identical for any two
persistence behaviors: the `saveQAMemory` promise is fire-and-forget
(`.catch(console.warn)`, not awaited), so whether the Q&A-memory write
succeeds or fails can neither alter nor block the status, body text or
quick replies of the response. -/
theorem kakaoPost_save_invisible (secret headerToken : Option String)
    (search : String → Except Err (List Ctx))
    (chat : String → String → Except Err (Option String))
    (body : Option KakaoBody)
    (save1 save2 : String → String → String → Except Err Unit) :
    kakaoPostHandler secret headerToken search chat save1 body =
      kakaoPostHandler secret headerToken search chat save2 body := rfl

/-- A persistence oracle that always succeeds. -/
def saveOk : String → String → String → Except Err Unit :=
  fun _ _ _ => Except.ok ()

/-- Witness for `kakaoPost_save_invisible`: succeeding vs. failing
persistence, concretely. -/
theorem kakaoPost_save_invisible_witness :
    kakaoPostHandler none none searchAllDown chatDown saveOk none =
      kakaoPostHandler none none searchAllDown chatDown saveDown none :=
  kakaoPost_save_invisible none none searchAllDown chatDown none saveOk saveDown

/-! ## The pure serverless handler's routing and secret gate (`part_000`)

From `part_000` lines 108-247 (the same gate appears in `part_001`'s echo
handler, lines 228-298):

```js
if (pathname === "/kakao/ping") { … 200 pong … }
if (pathname === "/kakao" && (q.has("fast") || q.get("fast") === "1")) { … 200 pong(fast-debug) … }
if (pathname === "/upload" && req.method === "POST") { … }
if (pathname === "/kakao") {
  if (KAKAO_SKILL_SECRET) {
    const token = req.headers["x-skill-secret"] || q.get("secret");
    if (token !== KAKAO_SKILL_SECRET) return res.status(403).json({ error: "forbidden" });
  }
  if (req.method === "GET") { … 200 guide … }
  if (req.method === "POST") { … pipeline … }
  return res.status(405).json({ error: "method-not-allowed" });
}
return res.status(404).json({ error: "not-found", path: pathname });
```

The `/upload` branch and the `/kakao` POST pipeline (retrieval + LLM +
best-effort insert; every failure inside it either degrades per-source or is
caught by the outer `catch`, which answers 500 `router-failed`) are not the
subject of the gate claims and are abstracted as oracle outcomes. -/

/-- `kakaoText(text, quickReplies)` (`part_000` lines 21-26). -/
def kakaoText (text : String) (quickReplies : List (String × String)) : KakaoPayload :=
  { version := "2.0", template := { outputs := [text], quickReplies := quickReplies } }

/-- JS `a || b` on possibly-`undefined` strings, as an option (`undefined`
and `""` are falsy): the token selection
`req.headers["x-skill-secret"] || q.get("secret")`. -/
def jsOrOpt (a b : Option String) : Option String :=
  match a with
  | some s => if s.isEmpty then b else some s
  | none => b

/-- The request fields the `part_000` dispatcher reads: parsed `pathname`
and method, `q.has("fast")`, `q.get("fast")`, `q.get("secret")`
(`none` = absent/`null`), and the `x-skill-secret` header. -/
structure Req000 where
  pathname : String
  method : String
  hasFast : Bool
  fastVal : Option String
  secretQ : Option String
  headerSecret : Option String
  deriving DecidableEq

/-- The `part_000` dispatcher (lines 108-247).  `uploadOutcome` abstracts
the whole `/upload` branch; `postOutcome` abstracts the `/kakao` POST
pipeline, `ok` being its 200 `kakaoText` answer and `error` the outer
`catch`'s 500 `router-failed` answer. -/
def handler000 (SECRET : Option String) (req : Req000)
    (uploadOutcome : Resp) (postOutcome : Except Err KakaoPayload) : Resp :=
  if req.pathname = "/kakao/ping" then
    Resp.json 200 (kakaoText "pong" [])
  else if req.pathname = "/kakao" ∧ (req.hasFast = true ∨ req.fastVal = some "1") then
    Resp.json 200 (kakaoText "pong(fast-debug)" [])
  else if req.pathname = "/upload" ∧ req.method = "POST" then
    uploadOutcome
  else if req.pathname = "/kakao" then
    if truthy SECRET = true ∧ jsOrOpt req.headerSecret req.secretQ ≠ SECRET then
      Resp.errJson 403 "forbidden"
    else if req.method = "GET" then
      Resp.json 200 (kakaoText "카카오 웹훅 OK (GET). 테스트는 POST로 보내주세요." [])
    else if req.method = "POST" then
      match postOutcome with
      | Except.ok p => Resp.json 200 p
      | Except.error _ => Resp.errJson 500 "router-failed"
    else
      Resp.errJson 405 "method-not-allowed"
  else
    Resp.errJson 404 "not-found"

/-- C9 counterexample: the claim "rejected exactly when NEITHER the
`x-skill-secret` header NOR the `secret` query parameter equals the
configured value" is FALSE of the code at a concrete request: with secret
`"s"` configured, header `"w"` and query parameter `"s"`, the query
parameter IS equal to the configured value, yet the handler answers 403 —
`header || query` selects the non-empty header, and the query parameter is
never consulted. -/
theorem handler000_secret_claim_false :
    ¬ (handler000 (some "s")
        { pathname := "/kakao", method := "POST", hasFast := false,
          fastVal := none, secretQ := some "s", headerSecret := some "w" }
        (Resp.text 200 "upload") (Except.error "e") = Resp.errJson 403 "forbidden"
      ↔ ((some "w" : Option String) ≠ some "s" ∧ (some "s" : Option String) ≠ some "s")) := by
  decide

/-- C9 (amended): on a `/kakao` request without the `fast` bypass, the
handler rejects with 403 `forbidden` exactly when the secret is configured
(truthy) and the single effective token — the header if present and
non-empty, otherwise the `secret` query parameter — differs from the
configured value; in particular an unconfigured (or empty) secret skips the
check entirely.  And a `/kakao` request carrying the `fast` query parameter
(present, or equal to `"1"`) gets the canned 200 `pong(fast-debug)` answer
with no secret verification at all. -/
theorem handler000_secret_gate (SECRET : Option String) (req : Req000)
    (uploadOutcome : Resp) (postOutcome : Except Err KakaoPayload)
    (hpath : req.pathname = "/kakao") :
    (¬(req.hasFast = true ∨ req.fastVal = some "1") →
      (handler000 SECRET req uploadOutcome postOutcome = Resp.errJson 403 "forbidden" ↔
        truthy SECRET = true ∧ jsOrOpt req.headerSecret req.secretQ ≠ SECRET)) ∧
    ((req.hasFast = true ∨ req.fastVal = some "1") →
      handler000 SECRET req uploadOutcome postOutcome =
        Resp.json 200 (kakaoText "pong(fast-debug)" [])) := by
  have hping : ¬ req.pathname = "/kakao/ping" := by rw [hpath]; decide
  have hupload : ¬ (req.pathname = "/upload" ∧ req.method = "POST") := by
    rw [hpath]
    rintro ⟨hk, -⟩
    exact absurd hk (by decide)
  constructor
  · intro hfast
    have hfastCond : ¬ (req.pathname = "/kakao" ∧ (req.hasFast = true ∨ req.fastVal = some "1")) := by
      rintro ⟨-, hf⟩
      exact hfast hf
    unfold handler000
    rw [if_neg hping, if_neg hfastCond, if_neg hupload, if_pos hpath]
    by_cases hsec : truthy SECRET = true ∧ jsOrOpt req.headerSecret req.secretQ ≠ SECRET
    · rw [if_pos hsec]
      exact ⟨fun _ => hsec, fun _ => rfl⟩
    · rw [if_neg hsec]
      refine ⟨fun habs => absurd ?_ hsec, fun hc => absurd hc hsec⟩
      by_cases hget : req.method = "GET"
      · rw [if_pos hget] at habs
        exact absurd habs (by decide)
      · rw [if_neg hget] at habs
        by_cases hpost : req.method = "POST"
        · rw [if_pos hpost] at habs
          cases postOutcome with
          | ok p => exact absurd habs (by simp)
          | error e => exact absurd habs (by simp)
        · rw [if_neg hpost] at habs
          exact absurd habs (by decide)
  · intro hf
    unfold handler000
    rw [if_neg hping, if_pos ⟨hpath, hf⟩]

/-- Witness for `handler000_secret_gate`: with secret `"s"` configured and
neither a header token nor a `secret` query parameter, a plain `/kakao` GET
is rejected 403. -/
theorem handler000_secret_gate_witness :
    handler000 (some "s")
      { pathname := "/kakao", method := "GET", hasFast := false,
        fastVal := none, secretQ := none, headerSecret := none }
      (Resp.text 200 "upload") (Except.error "e") = Resp.errJson 403 "forbidden" :=
  ((handler000_secret_gate (some "s")
      { pathname := "/kakao", method := "GET", hasFast := false,
        fastVal := none, secretQ := none, headerSecret := none }
      (Resp.text 200 "upload") (Except.error "e") rfl).1 (by decide)).mpr (by decide)

/-! ## The `POST /upload` password gate (Express variant)

From `api/router.js` lines 114-137 (identically `part_001` lines 86-110;
the `part_000` variant, lines 139-162, guards the comparison with
`ADMIN_PASSWORD &&` and is embedded separately below):

```js
const { pw, source = "기타", title = "문서" } = req.body;
if (pw !== ADMIN_PASSWORD) return res.status(403).send("비밀번호 오류");
if (!req.file?.buffer) return res.status(400).send("파일이 없습니다.");
… extract → chunk → embed → bulk insert …
res.send("업로드/인덱싱 완료!");          // catch: res.status(500).send("업로드 실패: " + e.message)
```

`pw` and `ADMIN_PASSWORD` are possibly-`undefined` strings compared with
strict equality `!==`, which is exactly `Option String` disequality (and
`undefined === undefined` holds).  The extract→chunk→embed→insert pipeline
is abstracted as an oracle `pipeline : Except Err Unit`; its failure message
feeds the 500 answer. -/

/-- The Express/`part_001` `POST /upload` handler around its pipeline
(`api/router.js` lines 114-137): the gate is the bare `pw !== ADMIN_PASSWORD`. -/
def uploadPost (adminPassword pw : Option String) (hasFile : Bool)
    (pipeline : Except Err Unit) : Resp :=
  if pw ≠ adminPassword then Resp.text 403 "비밀번호 오류"
  else if hasFile = false then Resp.text 400 "파일이 없습니다."
  else
    match pipeline with
    | Except.ok _ => Resp.text 200 "업로드/인덱싱 완료!"
    | Except.error m => Resp.text 500 ("업로드 실패: " ++ m)

/-- The `part_000` `/upload` close-callback (lines 139-162): the same
pipeline, but its gate is `if (ADMIN_PASSWORD && pw !== ADMIN_PASSWORD)` —
the password comparison only runs when `ADMIN_PASSWORD` is truthy
(configured and non-empty):

```js
const { pw, source = "기타", title = "문서" } = fields;
if (ADMIN_PASSWORD && pw !== ADMIN_PASSWORD) {
  return res.status(403).send("비밀번호 오류");
}
if (!fileBuffer) return res.status(400).send("파일이 없습니다.");
…
```
-/
def uploadPost000 (adminPassword pw : Option String) (hasFile : Bool)
    (pipeline : Except Err Unit) : Resp :=
  if truthy adminPassword = true ∧ pw ≠ adminPassword then Resp.text 403 "비밀번호 오류"
  else if hasFile = false then Resp.text 400 "파일이 없습니다."
  else
    match pipeline with
    | Except.ok _ => Resp.text 200 "업로드/인덱싱 완료!"
    | Except.error m => Resp.text 500 ("업로드 실패: " ++ m)

/-- C10 counterexample: the claim "the `/upload` password gate rejects with
403 exactly when the submitted `pw` field is not strictly equal to
`ADMIN_PASSWORD`" is FALSE of the cited `part_000` gate at a concrete input:
with `ADMIN_PASSWORD` unconfigured (`undefined`) and `pw = "wrong"`
submitted, `pw` is not strictly equal to `ADMIN_PASSWORD`, yet
`ADMIN_PASSWORD && …` is falsy, so no 403 — the upload proceeds. -/
theorem uploadPost000_pw_claim_false :
    ¬ (uploadPost000 none (some "wrong") true (Except.ok ()) =
        Resp.text 403 "비밀번호 오류" ↔
      (some "wrong" : Option String) ≠ none) := by
  decide

/-- C10 (amended): the Express/`part_001` gate answers 403 exactly when the
submitted `pw` is not strictly equal to `ADMIN_PASSWORD`; the `part_000`
gate answers 403 exactly when `ADMIN_PASSWORD` is additionally truthy
(configured and non-empty), so an unconfigured password admits any `pw`
there.  In every variant, an unconfigured `ADMIN_PASSWORD` with an omitted
`pw` field passes the gate (`undefined === undefined`) and the upload
proceeds with no authentication — as does unconfigured-with-wrong-`pw` in
`part_000`. -/
theorem uploadPost_pw_gate_variants (adminPassword pw : Option String)
    (hasFile : Bool) (pipeline : Except Err Unit) :
    (uploadPost adminPassword pw hasFile pipeline = Resp.text 403 "비밀번호 오류" ↔
      pw ≠ adminPassword) ∧
    (uploadPost000 adminPassword pw hasFile pipeline = Resp.text 403 "비밀번호 오류" ↔
      (truthy adminPassword = true ∧ pw ≠ adminPassword)) ∧
    uploadPost none none true (Except.ok ()) = Resp.text 200 "업로드/인덱싱 완료!" ∧
    uploadPost000 none (some "wrong") true (Except.ok ()) =
      Resp.text 200 "업로드/인덱싱 완료!" := by
  refine ⟨⟨fun h => ?_, fun h => by unfold uploadPost; rw [if_pos h]⟩,
    ⟨fun h => ?_, fun h => by unfold uploadPost000; rw [if_pos h]⟩, rfl, rfl⟩
  · by_contra hne
    unfold uploadPost at h
    rw [if_neg (fun hc => hc hne)] at h
    by_cases hf : hasFile = false
    · rw [if_pos hf] at h
      exact absurd h (by decide)
    · rw [if_neg hf] at h
      cases pipeline with
      | ok u => exact absurd h (by simp)
      | error m => exact absurd h (by simp)
  · by_contra hng
    unfold uploadPost000 at h
    rw [if_neg hng] at h
    by_cases hf : hasFile = false
    · rw [if_pos hf] at h
      exact absurd h (by decide)
    · rw [if_neg hf] at h
      cases pipeline with
      | ok u => exact absurd h (by simp)
      | error m => exact absurd h (by simp)

/-- Witness for `uploadPost_pw_gate_variants`: a configured password with an
omitted `pw` field is rejected 403 by both gates. -/
theorem uploadPost_pw_gate_variants_witness :
    uploadPost (some "hunter2") none true (Except.ok ()) = Resp.text 403 "비밀번호 오류" ∧
    uploadPost000 (some "hunter2") none true (Except.ok ()) = Resp.text 403 "비밀번호 오류" :=
  ⟨(uploadPost_pw_gate_variants (some "hunter2") none true (Except.ok ())).1.mpr
      (by decide),
    (uploadPost_pw_gate_variants (some "hunter2") none true (Except.ok ())).2.1.mpr
      (by decide)⟩
